import Mathlib

/-!
Verification of the `filecoin-signing-tools` signer core (`src/signer/src/lib.rs`)
against its natural-language specification.

The cryptographic and encoding primitives (secp256k1, BLS, blake2b, CBOR,
base64, address text rendering) are external collaborators of the signer and
are out of scope per the spec; they are modelled as an abstract record of
functions (`Prim`).  The control flow of every signer function is translated
from the Rust source.  Bytes are modelled as `List Nat`.
-/

namespace FilecoinSigner

/-- Network tag of an address (fvm_shared::address::Network). -/
inductive Network
  | Mainnet
  | Testnet
deriving DecidableEq, Repr

/-- Address protocol tag (fvm_shared::address::Protocol). -/
inductive Protocol
  | ID
  | Secp256k1
  | Actor
  | BLS
deriving DecidableEq, Repr

/-- A Filecoin address: network tag, protocol tag and payload bytes
(fvm_shared::address::Address). The payload of a secp256k1 address is a hash
of the public key; the payload of a BLS address is the serialized public key
itself. -/
structure Address where
  network : Network
  protocol : Protocol
  payload : List Nat
deriving DecidableEq, Repr

/-- Signature scheme tag (fvm_shared::crypto::signature::SignatureType). -/
inductive SigType
  | Secp256k1
  | BLS
deriving DecidableEq, Repr

/-- A signature: scheme tag plus raw byte buffer
(fvm_shared::crypto::signature::Signature). -/
structure Signature where
  sig_type : SigType
  bytes : List Nat
deriving DecidableEq, Repr

/-- Signature::new_secp256k1 -/
def Signature.new_secp256k1 (bytes : List Nat) : Signature :=
  { sig_type := SigType.Secp256k1, bytes := bytes }

/-- Signature::new_bls -/
def Signature.new_bls (bytes : List Nat) : Signature :=
  { sig_type := SigType.BLS, bytes := bytes }

/-- An unsigned Filecoin message (fvm_shared::message::Message). -/
structure Message where
  version : Nat
  from_ : Address
  to_ : Address
  sequence : Nat
  value : Int
  method_num : Nat
  params : List Nat
  gas_limit : Int
  gas_fee_cap : Int
  gas_premium : Int
deriving DecidableEq, Repr

/-- Message plus signature (extras::signed_message::ref_fvm::SignedMessage). -/
structure SignedMessage where
  message : Message
  signature : Signature
deriving DecidableEq, Repr

/-- A lane merge entry of a payment-channel voucher (fil_actor_paych::Merge). -/
structure Merge where
  lane : Nat
  nonce : Nat
deriving DecidableEq, Repr

/-- Opaque extra payload of a voucher (fil_actor_paych::ModVerifyParams). -/
structure ModVerifyParams where
  raw : Nat
deriving DecidableEq, Repr

/-- A payment-channel voucher (fil_actor_paych::SignedVoucher). The `amount`
is an arbitrary-precision integer (fvm_shared::bigint::BigInt). -/
structure SignedVoucher where
  channel_addr : Address
  time_lock_min : Int
  time_lock_max : Int
  secret_pre_image : List Nat
  extra : Option ModVerifyParams
  lane : Nat
  nonce : Nat
  amount : Int
  min_settle_height : Int
  merges : List Merge
  signature : Option Signature
deriving DecidableEq, Repr

/-- The signer's error type (crate::error::SignerError). `error.rs` is not in
src/; lib.rs only constructs the `GenericString` variant, and errors coming
out of the external primitives are modelled by `PrimError`. -/
inductive SignerError
  | GenericString (msg : String)
  | PrimError (msg : String)
deriving DecidableEq, Repr

/-- A parsed transaction, unsigned or signed (crate::api::MessageTxAPI; the
api module is not in src/, modelled from the spec's
"MessageOrSignedMessage"). -/
inductive MessageTxAPI
  | Message (m : FilecoinSigner.Message)
  | SignedMessage (sm : FilecoinSigner.SignedMessage)
deriving DecidableEq, Repr

/-- MessageTxAPI::get_message: the inner unsigned message. -/
def MessageTxAPI.get_message (tx : MessageTxAPI) : FilecoinSigner.Message :=
  match tx with
  | MessageTxAPI.Message m => m
  | MessageTxAPI.SignedMessage sm => sm.message

/-- Set the network tag on both addresses of a message.  Modelled from the
spec: "network tag is a call parameter, not stored" — parsing stamps the
caller-chosen network onto the decoded addresses. -/
def Message.setNetwork (m : Message) (n : Network) : Message :=
  { m with from_ := { m.from_ with network := n }, to_ := { m.to_ with network := n } }

/-- Modelled from the spec: the MessageTxNetwork → MessageTxAPI conversion in
crate::api (not in src/) stamps the caller-chosen network onto the parsed
transaction's addresses. -/
def MessageTxAPI.setNetwork (tx : MessageTxAPI) (n : Network) : MessageTxAPI :=
  match tx with
  | MessageTxAPI.Message m => MessageTxAPI.Message (m.setNetwork n)
  | MessageTxAPI.SignedMessage sm =>
      MessageTxAPI.SignedMessage { sm with message := sm.message.setNetwork n }

/- Opaque external cryptographic values.  Their internals are out of scope;
each wraps a raw tag so that concrete instantiations can be evaluated. -/

/-- A parsed secp256k1 (R, S) signature (libsecp256k1::Signature). -/
structure SecpRS where
  raw : Nat
deriving DecidableEq, Repr

/-- A parsed secp256k1 recovery id (libsecp256k1::RecoveryId). -/
structure SecpRecId where
  raw : Nat
deriving DecidableEq, Repr

/-- A parsed 32-byte secp256k1 message digest (libsecp256k1::Message). -/
structure SecpMsg32 where
  raw : List Nat
deriving DecidableEq, Repr

/-- A secp256k1 public key (libsecp256k1::PublicKey). -/
structure SecpPubKey where
  raw : List Nat
deriving DecidableEq, Repr

/-- A secp256k1 secret key (libsecp256k1::SecretKey). -/
structure SecpSecKey where
  raw : List Nat
deriving DecidableEq, Repr

/-- A BLS public key (bls_signatures::PublicKey). -/
structure BLSPk where
  raw : List Nat
deriving DecidableEq, Repr

/-- A BLS signature (bls_signatures::Signature). -/
structure BLSSig where
  raw : List Nat
deriving DecidableEq, Repr

/-- A BLS secret key (bls_signatures::PrivateKey). -/
structure BLSSk where
  raw : List Nat
deriving DecidableEq, Repr

/-- A point of the BLS hash-to-curve map (bls_signatures::hash output). -/
structure BLSHash where
  raw : List Nat
deriving DecidableEq, Repr

/- Typed actor-method parameter payloads.  Their CBOR shapes are external;
only the multisig constructor shapes (needed for the legacy migration) carry
real fields. -/

/-- fil_actor_init::ExecParams (opaque). -/
structure ExecParams where
  raw : Nat
deriving DecidableEq, Repr

/-- fil_actor_multisig::ProposeParams (opaque). -/
structure ProposeParams where
  raw : Nat
deriving DecidableEq, Repr

/-- fil_actor_multisig::TxnIDParams (opaque). -/
structure TxnIDParams where
  raw : Nat
deriving DecidableEq, Repr

/-- fil_actor_multisig::AddSignerParams (opaque). -/
structure AddSignerParams where
  raw : Nat
deriving DecidableEq, Repr

/-- fil_actor_multisig::RemoveSignerParams (opaque). -/
structure RemoveSignerParams where
  raw : Nat
deriving DecidableEq, Repr

/-- fil_actor_multisig::SwapSignerParams (opaque). -/
structure SwapSignerParams where
  raw : Nat
deriving DecidableEq, Repr

/-- fil_actor_multisig::ChangeNumApprovalsThresholdParams (opaque). -/
structure ChangeNumApprovalsThresholdParams where
  raw : Nat
deriving DecidableEq, Repr

/-- fil_actor_multisig::LockBalanceParams (opaque). -/
structure LockBalanceParams where
  raw : Nat
deriving DecidableEq, Repr

/-- fil_actor_paych::UpdateChannelStateParams (opaque). -/
structure UpdateChannelStateParams where
  raw : Nat
deriving DecidableEq, Repr

/-- fil_actor_paych::ConstructorParams (opaque). -/
structure PaychConstructorParams where
  raw : Nat
deriving DecidableEq, Repr

/-- fil_actor_multisig::ConstructorParams: the current multisig constructor
shape, with a start_epoch field. -/
structure ConstructorParams where
  signers : List Address
  num_approvals_threshold : Nat
  unlock_duration : Int
  start_epoch : Int
deriving DecidableEq, Repr

/-- crate::multisig_deprecated::ConstructorParamsV1: the legacy multisig
constructor shape, lacking start_epoch (multisig_deprecated.rs is not in
src/; fields named by the migration code in lib.rs). -/
structure ConstructorParamsV1 where
  signers : List Address
  num_approvals_threshold : Nat
  unlock_duration : Int
deriving DecidableEq, Repr

/-- crate::api::MessageParams: the closed tagged union of recognized
parameter payloads (one variant per recognized (actor kind, method)). -/
inductive MessageParams
  | MessageParamsSerialized (s : String)
  | ExecParams (p : ExecParams)
  | ProposeParams (p : ProposeParams)
  | TxnIDParams (p : TxnIDParams)
  | AddSignerParams (p : AddSignerParams)
  | RemoveSignerParams (p : RemoveSignerParams)
  | SwapSignerParams (p : SwapSignerParams)
  | ChangeNumApprovalsThresholdParams (p : ChangeNumApprovalsThresholdParams)
  | LockBalanceParams (p : LockBalanceParams)
  | UpdateChannelStateParams (p : UpdateChannelStateParams)
  | MultisigConstructorParams (p : ConstructorParams)
  | PaychConstructorParams (p : PaychConstructorParams)
deriving DecidableEq, Repr

/-- The external collaborators of the signer: cryptographic primitives,
binary encoding/decoding, base64 and address text rendering.  All are out of
scope per the spec and abstracted as functions; the two proof fields record
byte lengths fixed by the primitives' Rust types ([u8; 64] and [u8; 32]). -/
structure Prim where
  base64decode : String → Except SignerError (List Nat)
  base64encode : List Nat → String
  addressFromStr : String → Except SignerError Address
  addressToString : Address → String
  newSecpAddress : List Nat → Except SignerError Address
  fromSliceMessageTx : List Nat → Except SignerError MessageTxAPI
  voucherFromSlice : List Nat → Except SignerError SignedVoucher
  voucherToVec : SignedVoucher → Except SignerError (List Nat)
  messageToSigningBytes : Message → List Nat
  encodedSigningBytes : List Nat → List Nat
  blake2b256 : List Nat → List Nat
  secpParseSecKey : List Nat → Except SignerError SecpSecKey
  secpParseSig : List Nat → Except SignerError SecpRS
  secpParseRecid : Nat → Except SignerError SecpRecId
  secpParseMsg32 : List Nat → Except SignerError SecpMsg32
  secpMsgParse : List Nat → SecpMsg32
  secpRecover : SecpMsg32 → SecpRS → SecpRecId → Except SignerError SecpPubKey
  secpVerify : SecpMsg32 → SecpRS → SecpPubKey → Bool
  secpSign : SecpMsg32 → SecpSecKey → SecpRS × SecpRecId
  secpSerializeRS : SecpRS → List Nat
  secpRecidSerialize : SecpRecId → Nat
  secpSerializePub : SecpPubKey → List Nat
  blsPkFromBytes : List Nat → Except SignerError BLSPk
  blsSigFromBytes : List Nat → Except SignerError BLSSig
  blsSkFromBytes : List Nat → Except SignerError BLSSk
  blsSign : BLSSk → List Nat → BLSSig
  blsSigToBytes : BLSSig → List Nat
  blsVerify : BLSPk → BLSSig → List Nat → Bool
  blsHash : List Nat → BLSHash
  blsVerifyAgg : BLSSig → List BLSHash → List BLSPk → Bool
  decodeExecParams : List Nat → Except SignerError ExecParams
  decodePropose : List Nat → Except SignerError ProposeParams
  decodeTxnID : List Nat → Except SignerError TxnIDParams
  decodeAddSigner : List Nat → Except SignerError AddSignerParams
  decodeRemoveSigner : List Nat → Except SignerError RemoveSignerParams
  decodeSwapSigner : List Nat → Except SignerError SwapSignerParams
  decodeChangeThreshold : List Nat → Except SignerError ChangeNumApprovalsThresholdParams
  decodeLockBalance : List Nat → Except SignerError LockBalanceParams
  decodeUpdateChannelState : List Nat → Except SignerError UpdateChannelStateParams
  decodeMsigConstructor : List Nat → Except SignerError ConstructorParams
  decodePaychConstructor : List Nat → Except SignerError PaychConstructorParams
  decodeMsigConstructorV1 : List Nat → Except SignerError ConstructorParamsV1
  secpSerializeRS_len : ∀ rs, (secpSerializeRS rs).length = 64
  blake2b256_len : ∀ b, (blake2b256 b).length = 32

/-- Modelled from the spec: utils::get_digest (the utils module is not in
src/) computes "the same digest construction as signing": the blake2b-256
digest of the encoded message's canonical signing bytes. -/
def get_digest (p : Prim) (message : List Nat) : Except SignerError (List Nat) :=
  Except.ok (p.blake2b256 (p.encodedSigningBytes message))

/-- Modelled from the spec: utils::get_digest_voucher (the utils module is
not in src/) hashes the voucher's canonical signing bytes with the fixed
256-bit hash (blake2b-256). -/
def get_digest_voucher (p : Prim) (svb : List Nat) : Except SignerError (List Nat) :=
  Except.ok (p.blake2b256 svb)

/-- Modelled from the spec: fil_actor_paych SignedVoucher::signing_bytes (not
in src/): "the voucher's canonical signing bytes (its own serialization with
the signature field cleared)". -/
def SignedVoucher.signing_bytes (p : Prim) (v : SignedVoucher) : Except SignerError (List Nat) :=
  p.voucherToVec { v with signature := none }

/-- transaction_parse: decode a CBOR transaction buffer and stamp the
caller-chosen network onto it. -/
def transaction_parse (p : Prim) (cbor : List Nat) (testnet : Bool) :
    Except SignerError MessageTxAPI :=
  (p.fromSliceMessageTx cbor).bind fun message =>
    Except.ok (message.setNetwork (if testnet then Network.Testnet else Network.Mainnet))

/-- transaction_sign_secp56k1_raw (sic, source name): sign the blake2b-256
digest of the message's canonical signing bytes with secp256k1 and build the
65-byte R‖S‖recovery_index buffer. -/
def transaction_sign_secp56k1_raw (p : Prim) (message : Message)
    (private_key : List Nat) : Except SignerError Signature :=
  (p.secpParseSecKey private_key).bind fun secret_key =>
  (p.secpParseMsg32 (p.blake2b256 (p.messageToSigningBytes message))).bind fun message_digest =>
  let sr := p.secpSign message_digest secret_key
  let sig := p.secpSerializeRS sr.1 ++ [p.secpRecidSerialize sr.2]
  Except.ok (Signature.new_secp256k1 sig)

/-- transaction_sign_bls_raw: BLS-sign the canonical signing bytes directly. -/
def transaction_sign_bls_raw (p : Prim) (message : Message)
    (private_key : List Nat) : Except SignerError Signature :=
  (p.blsSkFromBytes private_key).bind fun sk =>
  let sig := p.blsSign sk (p.messageToSigningBytes message)
  Except.ok (Signature.new_bls (p.blsSigToBytes sig))

/-- transaction_sign_raw: dispatch on the sender address protocol. -/
def transaction_sign_raw (p : Prim) (message : Message)
    (private_key : List Nat) : Except SignerError Signature :=
  match message.from_.protocol with
  | Protocol.Secp256k1 => transaction_sign_secp56k1_raw p message private_key
  | Protocol.BLS => transaction_sign_bls_raw p message private_key
  | _ => Except.error (SignerError.GenericString "Unknown signing protocol")

/-- verify_secp256k1_signature: recovery-and-match verification.  The network
is fixed to Testnet internally (the source's FIXME).  Rust indexes
signature.bytes[..64] and [64] directly (panicking when shorter); modelled
with take/getD, which agrees whenever the buffer has at least 65 bytes. -/
def verify_secp256k1_signature (p : Prim) (signature : Signature)
    (cbor : List Nat) : Except SignerError Bool :=
  let network := Network.Testnet
  (p.secpParseSig (signature.bytes.take 64)).bind fun signature_rs =>
  (p.secpParseRecid (signature.bytes.getD 64 0)).bind fun recovery_id =>
  (transaction_parse p cbor (network == Network.Testnet)).bind fun tx =>
  (get_digest p cbor).bind fun message_digest =>
  (p.secpParseMsg32 message_digest).bind fun blob_to_sign =>
  (p.secpRecover blob_to_sign signature_rs recovery_id).bind fun public_key =>
  (p.newSecpAddress (p.secpSerializePub public_key)).bind fun from0 =>
  let from1 := { from0 with network := network }
  let tx_from := match tx with
    | MessageTxAPI.Message t => t.from_
    | MessageTxAPI.SignedMessage t => t.message.from_
  let expected_from := p.addressToString from1
  if p.addressToString tx_from ≠ expected_from then
    Except.ok false
  else
    Except.ok (p.secpVerify blob_to_sign signature_rs public_key)

/-- verify_bls_signature: direct verification using the sender address
payload as the public key, against the raw canonical signing bytes. -/
def verify_bls_signature (p : Prim) (signature : Signature)
    (cbor : List Nat) : Except SignerError Bool :=
  (transaction_parse p cbor true).bind fun message0 =>
  let message := message0.get_message
  (p.blsPkFromBytes message.from_.payload).bind fun pk =>
  (p.blsSigFromBytes signature.bytes).bind fun sig =>
  let signing_bytes := p.messageToSigningBytes message
  Except.ok (p.blsVerify pk sig signing_bytes)

/-- verify_signature: dispatch on the signature's scheme tag. -/
def verify_signature (p : Prim) (signature : Signature)
    (cbor : List Nat) : Except SignerError Bool :=
  match signature.sig_type with
  | SigType.Secp256k1 => verify_secp256k1_signature p signature cbor
  | SigType.BLS => verify_bls_signature p signature cbor

/-- extract_from_pub_key_from_message: parse, then read the BLS public key
from the sender address payload. -/
def extract_from_pub_key_from_message (p : Prim) (cbor_message : List Nat) :
    Except SignerError BLSPk :=
  (transaction_parse p cbor_message true).bind fun message =>
  p.blsPkFromBytes message.get_message.from_.payload

/-- extract_bls_signing_bytes_from_message: parse, then compute the canonical
signing bytes. -/
def extract_bls_signing_bytes_from_message (p : Prim) (cbor_message : List Nat) :
    Except SignerError (List Nat) :=
  (transaction_parse p cbor_message true).bind fun message =>
  Except.ok (p.messageToSigningBytes message.get_message)

/-- Rust's `collect::<Result<Vec<_>, _>>`: succeed with the list of values
when every element succeeds, otherwise fail with the first error. -/
def collectExcept : List (Except SignerError α) → Except SignerError (List α)
  | [] => Except.ok []
  | x :: xs =>
      x.bind fun v => (collectExcept xs).bind fun vs => Except.ok (v :: vs)

/-- verify_aggregated_signature: extract every message's BLS key and signing
bytes (aborting on any failure), then one aggregate pairing check. -/
def verify_aggregated_signature (p : Prim) (signature : Signature)
    (cbor_messages : List (List Nat)) : Except SignerError Bool :=
  (p.blsSigFromBytes signature.bytes).bind fun sig =>
  match collectExcept (cbor_messages.map (extract_from_pub_key_from_message p)) with
  | Except.error _ =>
      Except.error (SignerError.GenericString "Invalid public key extracted from message")
  | Except.ok pks =>
      match collectExcept (cbor_messages.map (extract_bls_signing_bytes_from_message p)) with
      | Except.error _ =>
          Except.error (SignerError.GenericString "An invalid message was provided")
      | Except.ok signing_bytes =>
          let hashes := signing_bytes.map p.blsHash
          Except.ok (p.blsVerifyAgg sig hashes pks)

/-- sign_voucher: decode, hash the voucher's canonical signing bytes with
blake2b-256, sign the digest with secp256k1, attach the 65-byte signature,
re-encode.  There is no dispatch on any address protocol. -/
def sign_voucher (p : Prim) (voucher_string : String)
    (private_key : List Nat) : Except SignerError String :=
  (p.base64decode voucher_string).bind fun decoded_voucher =>
  (p.voucherFromSlice decoded_voucher).bind fun voucher =>
  (p.secpParseSecKey private_key).bind fun secret_key =>
  (voucher.signing_bytes p).bind fun svb =>
  (get_digest_voucher p svb).bind fun digest =>
  (p.secpParseMsg32 digest).bind fun blob_to_sign =>
  let sr := p.secpSign blob_to_sign secret_key
  let sig := p.secpSerializeRS sr.1 ++ [p.secpRecidSerialize sr.2]
  let voucher1 := { voucher with signature := some (Signature.new_secp256k1 sig) }
  (p.voucherToVec voucher1).bind fun binary_voucher =>
  Except.ok (p.base64encode binary_voucher)

/-- num-bigint digit parsing for radix 10: a nonempty run of decimal digits
(exotic separator corner cases of the external parser are elided). -/
def parseDigitsBase10 : List Char → Option Nat
  | [] => none
  | [c] => if c.isDigit then some (c.toNat - 48) else none
  | c :: rest =>
      if c.isDigit then
        (parseDigitsBase10 rest).map fun n =>
          (c.toNat - 48) * 10 ^ rest.length + n
      else none

/-- Modelled from num-bigint BigInt::parse_bytes(_, 10) (external collaborator):
an optional leading sign followed by a nonempty run of decimal digits; anything
else is None.  A leading minus yields a negative value. -/
def parseBigIntBase10 (s : String) : Option Int :=
  match s.data with
  | '-' :: rest => (parseDigitsBase10 rest).map fun n => -(n : Int)
  | '+' :: rest => (parseDigitsBase10 rest).map fun n => (n : Int)
  | l => (parseDigitsBase10 l).map fun n => (n : Int)

/-- The voucher value built by create_voucher before canonical encoding. -/
def create_voucher_unsigned (pch : Address) (time_lock_min time_lock_max : Int)
    (amount : Int) (lane nonce : Nat) (min_settle_height : Int) : SignedVoucher :=
  { channel_addr := pch
    time_lock_min := time_lock_min
    time_lock_max := time_lock_max
    secret_pre_image := []
    extra := none
    lane := lane
    nonce := nonce
    amount := amount
    min_settle_height := min_settle_height
    merges := []
    signature := none }

/-- create_voucher: parse the channel address and the base-10 amount, build
the unsigned voucher, serialize and base64-encode it. -/
def create_voucher (p : Prim) (payment_channel_address : String)
    (time_lock_min time_lock_max : Int) (amount : String)
    (lane nonce : Nat) (min_settle_height : Int) : Except SignerError String :=
  (p.addressFromStr payment_channel_address).bind fun pch =>
  match parseBigIntBase10 amount with
  | none => Except.error (SignerError.GenericString "`amount` couldn't be parsed.")
  | some value =>
      let voucher := create_voucher_unsigned pch time_lock_min time_lock_max
        value lane nonce min_settle_height
      (p.voucherToVec voucher).bind fun bytes =>
      Except.ok (p.base64encode bytes)

/-- Modelled from the spec: fil_actor_init::Method numbering via
FromPrimitive (the init actor crate is not in src/): Constructor = 1,
Exec = 2. -/
def methodInitFromU64 (m : Nat) : Option Bool :=
  if m = 1 then some false else if m = 2 then some true else none

/-- fil_actor_multisig::Method (modelled from the spec; the multisig actor
crate is not in src/). -/
inductive MsigMethod
  | Constructor
  | Propose
  | Approve
  | Cancel
  | AddSigner
  | RemoveSigner
  | SwapSigner
  | ChangeNumApprovalsThreshold
  | LockBalance
deriving DecidableEq, Repr

/-- Modelled from the spec: fil_actor_multisig::Method numbering via
FromPrimitive: Constructor = 1 through LockBalance = 9. -/
def msigMethodFromU64 (m : Nat) : Option MsigMethod :=
  if m = 1 then some MsigMethod.Constructor
  else if m = 2 then some MsigMethod.Propose
  else if m = 3 then some MsigMethod.Approve
  else if m = 4 then some MsigMethod.Cancel
  else if m = 5 then some MsigMethod.AddSigner
  else if m = 6 then some MsigMethod.RemoveSigner
  else if m = 7 then some MsigMethod.SwapSigner
  else if m = 8 then some MsigMethod.ChangeNumApprovalsThreshold
  else if m = 9 then some MsigMethod.LockBalance
  else none

/-- fil_actor_paych::Method (modelled from the spec; the paych actor crate is
not in src/). -/
inductive PaychMethod
  | Constructor
  | UpdateChannelState
  | Settle
  | Collect
deriving DecidableEq, Repr

/-- Modelled from the spec: fil_actor_paych::Method numbering via
FromPrimitive: Constructor = 1, UpdateChannelState = 2, Settle = 3,
Collect = 4. -/
def paychMethodFromU64 (m : Nat) : Option PaychMethod :=
  if m = 1 then some PaychMethod.Constructor
  else if m = 2 then some PaychMethod.UpdateChannelState
  else if m = 3 then some PaychMethod.Settle
  else if m = 4 then some PaychMethod.Collect
  else none

/-- deserialize_params: closed dispatch over (actor kind, method number).
The Rust sequential ifs each return, hence the else-chain. -/
def deserialize_params (p : Prim) (params_b64_string : String)
    (actor_type : String) (method : Nat) : Except SignerError MessageParams :=
  (p.base64decode params_b64_string).bind fun params_decode =>
  if actor_type = "init" then
    match methodInitFromU64 method with
    | some true =>
        (p.decodeExecParams params_decode).bind fun params =>
        Except.ok (MessageParams.ExecParams params)
    | _ => Except.error (SignerError.GenericString "Unknown method for init actor.")
  else if actor_type = "multisig" then
    match msigMethodFromU64 method with
    | some MsigMethod.Propose =>
        (p.decodePropose params_decode).bind fun params =>
        Except.ok (MessageParams.ProposeParams params)
    | some MsigMethod.Approve =>
        (p.decodeTxnID params_decode).bind fun params =>
        Except.ok (MessageParams.TxnIDParams params)
    | some MsigMethod.Cancel =>
        (p.decodeTxnID params_decode).bind fun params =>
        Except.ok (MessageParams.TxnIDParams params)
    | some MsigMethod.AddSigner =>
        (p.decodeAddSigner params_decode).bind fun params =>
        Except.ok (MessageParams.AddSignerParams params)
    | some MsigMethod.RemoveSigner =>
        (p.decodeRemoveSigner params_decode).bind fun params =>
        Except.ok (MessageParams.RemoveSignerParams params)
    | some MsigMethod.SwapSigner =>
        (p.decodeSwapSigner params_decode).bind fun params =>
        Except.ok (MessageParams.SwapSignerParams params)
    | some MsigMethod.ChangeNumApprovalsThreshold =>
        (p.decodeChangeThreshold params_decode).bind fun params =>
        Except.ok (MessageParams.ChangeNumApprovalsThresholdParams params)
    | some MsigMethod.LockBalance =>
        (p.decodeLockBalance params_decode).bind fun params =>
        Except.ok (MessageParams.LockBalanceParams params)
    | _ => Except.error (SignerError.GenericString "Unknown method for multisig actor.")
  else if actor_type = "paymentchannel" then
    match paychMethodFromU64 method with
    | some PaychMethod.UpdateChannelState =>
        (p.decodeUpdateChannelState params_decode).bind fun params =>
        Except.ok (MessageParams.UpdateChannelStateParams params)
    | some PaychMethod.Settle =>
        Except.ok (MessageParams.MessageParamsSerialized "")
    | some PaychMethod.Collect =>
        Except.ok (MessageParams.MessageParamsSerialized "")
    | _ => Except.error (SignerError.GenericString "Unknown method for paymentchannel actor.")
  else
    Except.error (SignerError.GenericString "Actor type not supported.")

/-- deserialize_constructor_params: closed dispatch over the code tag,
including the legacy "fil/1/multisig" migration. -/
def deserialize_constructor_params (p : Prim) (params_b64_string : String)
    (code_cid : String) : Except SignerError MessageParams :=
  (p.base64decode params_b64_string).bind fun params_decode =>
  if code_cid = "multisig" then
    (p.decodeMsigConstructor params_decode).bind fun params =>
    Except.ok (MessageParams.MultisigConstructorParams params)
  else if code_cid = "paymentchannel" then
    (p.decodePaychConstructor params_decode).bind fun params =>
    Except.ok (MessageParams.PaychConstructorParams params)
  else if code_cid = "fil/1/multisig" then
    (p.decodeMsigConstructorV1 params_decode).bind fun deprecated_multisig_params =>
    let params : ConstructorParams :=
      { signers := deprecated_multisig_params.signers
        num_approvals_threshold := deprecated_multisig_params.num_approvals_threshold
        unlock_duration := deprecated_multisig_params.unlock_duration
        start_epoch := 0 }
    Except.ok (MessageParams.MultisigConstructorParams params)
  else
    Except.error (SignerError.GenericString "Code CID not supported.")

/-- verify_voucher_signature: decode the voucher and the signer address,
recompute the canonical digest, then dispatch on the given address's
protocol; fails when the voucher carries no signature. -/
def verify_voucher_signature (p : Prim) (voucher_base64_string : String)
    (address_signer : String) : Except SignerError Bool :=
  (p.base64decode voucher_base64_string).bind fun decoded_voucher =>
  (p.voucherFromSlice decoded_voucher).bind fun signed_voucher =>
  (p.addressFromStr address_signer).bind fun address =>
  (signed_voucher.signing_bytes p).bind fun sv_bytes =>
  (get_digest_voucher p sv_bytes).bind fun digest =>
  match signed_voucher.signature with
  | some signature =>
      match address.protocol with
      | Protocol.Secp256k1 =>
          (p.secpParseSig (signature.bytes.take 64)).bind fun sig =>
          (p.secpParseRecid (signature.bytes.getD 64 0)).bind fun recovery_id =>
          let message := p.secpMsgParse digest
          (p.secpRecover message sig recovery_id).bind fun public_key =>
          (p.newSecpAddress (p.secpSerializePub public_key)).bind fun signer0 =>
          let signer := { signer0 with network := address.network }
          if p.addressToString signer ≠ p.addressToString address then
            Except.error (SignerError.GenericString
              "Address recovered doesn't match address given")
          else
            Except.ok (p.secpVerify message sig public_key)
      | Protocol.BLS =>
          (p.blsPkFromBytes address.payload).bind fun pk =>
          (p.blsSigFromBytes signature.bytes).bind fun sig =>
          Except.ok (p.blsVerify pk sig digest)
      | _ => Except.error (SignerError.GenericString "Address should BLS or Secp256k1.")
  | none => Except.error (SignerError.GenericString "Voucher not signed.")

/-- Whether an Except value is an error. -/
def isError : Except SignerError α → Bool
  | Except.error _ => true
  | Except.ok _ => false

/-- The enumerated (actor kind, method number) table recognized by
deserialize_params: Exec for init; Propose through LockBalance (2..9) for
multisig; UpdateChannelState, Settle, Collect (2..4) for paymentchannel. -/
def paramsTableMember (actor : String) (method : Nat) : Bool :=
  (decide (actor = "init") && decide (method = 2))
  || (decide (actor = "multisig") && decide (2 ≤ method ∧ method ≤ 9))
  || (decide (actor = "paymentchannel") && decide (2 ≤ method ∧ method ≤ 4))

/-- Rewrite every address network tag of a parsed transaction by `g`,
leaving all other fields unchanged. -/
def mangleNetworks (g : Network → Network) (tx : MessageTxAPI) : MessageTxAPI :=
  let f : Message → Message := fun m =>
    { m with from_ := { m.from_ with network := g m.from_.network },
             to_ := { m.to_ with network := g m.to_.network } }
  match tx with
  | MessageTxAPI.Message m => MessageTxAPI.Message (f m)
  | MessageTxAPI.SignedMessage sm =>
      MessageTxAPI.SignedMessage { sm with message := f sm.message }

/-- The same primitives, except that the CBOR transaction decoder reports
arbitrarily different network tags on the decoded addresses: a model of "the
network the message was intended for", which the encoding does not carry. -/
def Prim.withNetworkMangled (p : Prim) (g : Network → Network) : Prim :=
  { p with fromSliceMessageTx := fun c => (p.fromSliceMessageTx c).map (mangleNetworks g) }

/-- The sender/receiver address used by the concrete primitive instantiation. -/
def addr0 : Address :=
  { network := Network.Mainnet, protocol := Protocol.Secp256k1, payload := [1] }

/-- A fixed message skeleton used by the concrete primitive instantiation. -/
def msg0 : Message :=
  { version := 0, from_ := addr0, to_ := addr0, sequence := 0, value := 0,
    method_num := 0, params := [5], gas_limit := 0, gas_fee_cap := 0,
    gas_premium := 0 }

/-- A fixed voucher skeleton used by the concrete primitive instantiation. -/
def voucher0 : SignedVoucher :=
  { channel_addr := addr0, time_lock_min := 0, time_lock_max := 0,
    secret_pre_image := [], extra := none, lane := 0, nonce := 1, amount := 0,
    min_settle_height := 0, merges := [], signature := none }

/-- Address rendering of the concrete instantiation: network prefix,
protocol digit, payload. -/
def addrString0 (a : Address) : String :=
  (match a.network with | Network.Mainnet => "f" | Network.Testnet => "t")
    ++ (match a.protocol with
        | Protocol.ID => "0"
        | Protocol.Secp256k1 => "1"
        | Protocol.Actor => "2"
        | Protocol.BLS => "3")
    ++ toString a.payload

/-- A concrete, executable instantiation of the external primitives, used to
evaluate the theorems on closed inputs. -/
def prim0 : Prim where
  base64decode := fun s =>
    if s = "!" then Except.error (SignerError.PrimError "b64")
    else Except.ok (s.data.map Char.toNat)
  base64encode := fun _ => "b64"
  addressFromStr := fun s =>
    if s = "secp" then
      Except.ok { network := Network.Testnet, protocol := Protocol.Secp256k1, payload := [1] }
    else if s = "bls" then
      Except.ok { network := Network.Testnet, protocol := Protocol.BLS, payload := [3] }
    else if s = "id" then
      Except.ok { network := Network.Testnet, protocol := Protocol.ID, payload := [0] }
    else Except.error (SignerError.PrimError "addr")
  addressToString := addrString0
  newSecpAddress := fun bs =>
    Except.ok { network := Network.Mainnet, protocol := Protocol.Secp256k1, payload := bs }
  fromSliceMessageTx := fun b =>
    if b = [9] then Except.error (SignerError.PrimError "cbor")
    else Except.ok (MessageTxAPI.Message { msg0 with params := b })
  voucherFromSlice := fun b =>
    Except.ok { voucher0 with
      signature :=
        if b = [] then none
        else some (Signature.new_secp256k1 (List.replicate 65 9)) }
  voucherToVec := fun v => Except.ok (List.replicate v.nonce 5)
  messageToSigningBytes := fun m => m.params
  encodedSigningBytes := fun b => b
  blake2b256 := fun _ => List.replicate 32 0
  secpParseSecKey := fun k =>
    if k = [] then Except.error (SignerError.PrimError "sk") else Except.ok { raw := k }
  secpParseSig := fun l => Except.ok { raw := l.length }
  secpParseRecid := fun n => Except.ok { raw := n }
  secpParseMsg32 := fun l => Except.ok { raw := l }
  secpMsgParse := fun l => { raw := l }
  secpRecover := fun _ _ _ => Except.ok { raw := [2] }
  secpVerify := fun _ _ _ => true
  secpSign := fun m k => ({ raw := m.raw.length }, { raw := k.raw.length })
  secpSerializeRS := fun rs => List.replicate 64 (rs.raw % 256)
  secpRecidSerialize := fun r => r.raw % 256
  secpSerializePub := fun pk => pk.raw
  blsPkFromBytes := fun b =>
    if b = [] then Except.error (SignerError.PrimError "blspk") else Except.ok { raw := b }
  blsSigFromBytes := fun b => Except.ok { raw := b }
  blsSkFromBytes := fun b => Except.ok { raw := b }
  blsSign := fun _ m => { raw := m }
  blsSigToBytes := fun s => s.raw
  blsVerify := fun _ _ m => decide (m = [5])
  blsHash := fun b => { raw := b }
  blsVerifyAgg := fun _ _ _ => true
  decodeExecParams := fun b => Except.ok { raw := b.length }
  decodePropose := fun b => Except.ok { raw := b.length }
  decodeTxnID := fun b => Except.ok { raw := b.length }
  decodeAddSigner := fun b => Except.ok { raw := b.length }
  decodeRemoveSigner := fun b => Except.ok { raw := b.length }
  decodeSwapSigner := fun b => Except.ok { raw := b.length }
  decodeChangeThreshold := fun b => Except.ok { raw := b.length }
  decodeLockBalance := fun b => Except.ok { raw := b.length }
  decodeUpdateChannelState := fun b => Except.ok { raw := b.length }
  decodeMsigConstructor := fun b =>
    Except.ok { signers := [], num_approvals_threshold := b.length,
                unlock_duration := 3, start_epoch := 5 }
  decodePaychConstructor := fun b => Except.ok { raw := b.length }
  decodeMsigConstructorV1 := fun b =>
    Except.ok { signers := [addr0], num_approvals_threshold := b.length,
                unlock_duration := 3 }
  secpSerializeRS_len := fun _ => by simp
  blake2b256_len := fun _ => by simp

/- Helper lemmas shared by the claim proofs. -/

theorem exbind_ok {α β : Type} (a : α) (f : α → Except SignerError β) :
    Except.bind (Except.ok a) f = f a := rfl

theorem exbind_err {α β : Type} (e : SignerError) (f : α → Except SignerError β) :
    Except.bind (Except.error e : Except SignerError α) f = Except.error e := rfl

theorem exmap_ok {α β : Type} (a : α) (f : α → β) :
    (Except.ok a : Except SignerError α).map f = Except.ok (f a) := rfl

theorem exmap_err {α β : Type} (e : SignerError) (f : α → β) :
    (Except.error e : Except SignerError α).map f = Except.error e := rfl

/-- C3: for every message whose from address has the secp256k1 protocol and
every private key, transaction_sign_raw returns a secp256k1-tagged signature
whose byte buffer is exactly 65 bytes: the 64-byte R-S serialization of the
ECDSA signature over the blake2b-256 hash of the message's canonical signing
bytes, followed by the 1-byte recovery index. -/
theorem transaction_sign_raw_secp_65_bytes (p : Prim) (message : Message)
    (private_key : List Nat) (sk : SecpSecKey) (blob : SecpMsg32)
    (hproto : message.from_.protocol = Protocol.Secp256k1)
    (hsk : p.secpParseSecKey private_key = Except.ok sk)
    (hblob : p.secpParseMsg32 (p.blake2b256 (p.messageToSigningBytes message)) =
      Except.ok blob) :
    transaction_sign_raw p message private_key =
      Except.ok (Signature.new_secp256k1
        (p.secpSerializeRS (p.secpSign blob sk).1 ++
          [p.secpRecidSerialize (p.secpSign blob sk).2]))
    ∧ (p.secpSerializeRS (p.secpSign blob sk).1 ++
        [p.secpRecidSerialize (p.secpSign blob sk).2]).length = 65
    ∧ (Signature.new_secp256k1
        (p.secpSerializeRS (p.secpSign blob sk).1 ++
          [p.secpRecidSerialize (p.secpSign blob sk).2])).sig_type =
        SigType.Secp256k1 := by
  refine ⟨?_, ?_, rfl⟩
  · unfold transaction_sign_raw
    rw [hproto]
    unfold transaction_sign_secp56k1_raw
    rw [hsk, exbind_ok, hblob, exbind_ok]
  · rw [List.length_append, p.secpSerializeRS_len, List.length_singleton]

/-- Witness for C3 at a concrete instantiation: prim0, the fixed message
msg0 and the one-byte key [1]. -/
theorem transaction_sign_raw_secp_65_bytes_witness :
    transaction_sign_raw prim0 msg0 [1] =
      Except.ok (Signature.new_secp256k1 (List.replicate 64 32 ++ [1]))
    ∧ (List.replicate 64 32 ++ [1]).length = 65 := by
  have h := transaction_sign_raw_secp_65_bytes prim0 msg0 [1]
    { raw := [1] } { raw := List.replicate 32 0 } rfl rfl rfl
  refine ⟨?_, by decide⟩
  rw [h.1]
  rfl

/-- C2: for every voucher and every private key, sign_voucher signs with the
secp256k1 scheme unconditionally: it hashes the voucher's canonical signing
bytes (its serialization with the signature field cleared) with blake2b-256,
signs that digest with secp256k1, and attaches a 65-byte R-S-recovery_index
secp256k1-tagged signature.  The statement quantifies over every decoded
voucher with no hypothesis on any address protocol: no protocol dispatch
occurs, so the BLS (pairing) scheme is never used. -/
theorem sign_voucher_always_secp256k1 (p : Prim) (voucher_string : String)
    (private_key : List Nat) (decoded : List Nat) (voucher : SignedVoucher)
    (sk : SecpSecKey) (svb : List Nat) (blob : SecpMsg32)
    (hdec : p.base64decode voucher_string = Except.ok decoded)
    (hv : p.voucherFromSlice decoded = Except.ok voucher)
    (hsk : p.secpParseSecKey private_key = Except.ok sk)
    (hsvb : p.voucherToVec { voucher with signature := none } = Except.ok svb)
    (hblob : p.secpParseMsg32 (p.blake2b256 svb) = Except.ok blob) :
    sign_voucher p voucher_string private_key =
      (p.voucherToVec { voucher with signature := some (Signature.new_secp256k1
        (p.secpSerializeRS (p.secpSign blob sk).1 ++
          [p.secpRecidSerialize (p.secpSign blob sk).2])) }).map p.base64encode
    ∧ (p.secpSerializeRS (p.secpSign blob sk).1 ++
        [p.secpRecidSerialize (p.secpSign blob sk).2]).length = 65
    ∧ (Signature.new_secp256k1
        (p.secpSerializeRS (p.secpSign blob sk).1 ++
          [p.secpRecidSerialize (p.secpSign blob sk).2])).sig_type =
        SigType.Secp256k1 := by
  refine ⟨?_, ?_, rfl⟩
  · unfold sign_voucher
    rw [hdec, exbind_ok, hv, exbind_ok, hsk, exbind_ok]
    unfold SignedVoucher.signing_bytes
    rw [hsvb, exbind_ok]
    unfold get_digest_voucher
    rw [exbind_ok, hblob, exbind_ok]
    dsimp only
    cases hw : p.voucherToVec { voucher with signature := some (Signature.new_secp256k1
        (p.secpSerializeRS (p.secpSign blob sk).1 ++
          [p.secpRecidSerialize (p.secpSign blob sk).2])) } with
    | ok b => rfl
    | error e => rfl
  · rw [List.length_append, p.secpSerializeRS_len, List.length_singleton]

/-- Witness for C2 at a concrete instantiation: prim0, the voucher decoded
from "v" (whose channel address has the secp256k1 protocol but which is
signed with secp256k1 regardless) and the one-byte key [1]. -/
theorem sign_voucher_always_secp256k1_witness :
    sign_voucher prim0 "v" [1] = Except.ok "b64"
    ∧ (prim0.secpSerializeRS (prim0.secpSign { raw := List.replicate 32 0 }
        { raw := [1] }).1 ++
        [prim0.secpRecidSerialize (prim0.secpSign { raw := List.replicate 32 0 }
          { raw := [1] }).2]).length = 65 := by
  have h := sign_voucher_always_secp256k1 prim0 "v" [1] [118]
    { voucher0 with signature := some (Signature.new_secp256k1 (List.replicate 65 9)) }
    { raw := [1] } [5] { raw := List.replicate 32 0 } rfl rfl rfl rfl rfl
  exact ⟨by rw [h.1]; rfl, h.2.1⟩

/-- C5: for every payload that decodes as the legacy multisig constructor
shape, deserialize_constructor_params with the legacy tag "fil/1/multisig"
returns a current-shape multisig constructor params value whose signers,
num_approvals_threshold and unlock_duration equal the legacy payload's
fields and whose start_epoch equals 0. -/
theorem deserialize_constructor_params_legacy_migration (p : Prim)
    (params_b64_string : String) (bytes : List Nat) (v1 : ConstructorParamsV1)
    (hdec : p.base64decode params_b64_string = Except.ok bytes)
    (hv1 : p.decodeMsigConstructorV1 bytes = Except.ok v1) :
    deserialize_constructor_params p params_b64_string "fil/1/multisig" =
      Except.ok (MessageParams.MultisigConstructorParams
        { signers := v1.signers
          num_approvals_threshold := v1.num_approvals_threshold
          unlock_duration := v1.unlock_duration
          start_epoch := 0 }) := by
  unfold deserialize_constructor_params
  rw [hdec, exbind_ok, if_neg (by decide), if_neg (by decide), if_pos rfl,
    hv1, exbind_ok]

/-- Witness for C5 at a concrete instantiation: prim0 and the payload
decoded from "x". -/
theorem deserialize_constructor_params_legacy_migration_witness :
    deserialize_constructor_params prim0 "x" "fil/1/multisig" =
      Except.ok (MessageParams.MultisigConstructorParams
        { signers := [addr0], num_approvals_threshold := 1,
          unlock_duration := 3, start_epoch := 0 }) := by
  have h := deserialize_constructor_params_legacy_migration prim0 "x" [120]
    { signers := [addr0], num_approvals_threshold := 1, unlock_duration := 3 }
    rfl rfl
  exact h

theorem methodInitFromU64_eq_none {m : Nat} (h1 : m ≠ 1) (h2 : m ≠ 2) :
    methodInitFromU64 m = none := by
  simp [methodInitFromU64, h1, h2]

theorem msigMethodFromU64_eq_none {m : Nat} (h1 : m ≠ 1)
    (h2 : ¬(2 ≤ m ∧ m ≤ 9)) : msigMethodFromU64 m = none := by
  have e2 : m ≠ 2 := by omega
  have e3 : m ≠ 3 := by omega
  have e4 : m ≠ 4 := by omega
  have e5 : m ≠ 5 := by omega
  have e6 : m ≠ 6 := by omega
  have e7 : m ≠ 7 := by omega
  have e8 : m ≠ 8 := by omega
  have e9 : m ≠ 9 := by omega
  simp [msigMethodFromU64, h1, e2, e3, e4, e5, e6, e7, e8, e9]

theorem paychMethodFromU64_eq_none {m : Nat} (h1 : m ≠ 1)
    (h2 : ¬(2 ≤ m ∧ m ≤ 4)) : paychMethodFromU64 m = none := by
  have e2 : m ≠ 2 := by omega
  have e3 : m ≠ 3 := by omega
  have e4 : m ≠ 4 := by omega
  simp [paychMethodFromU64, h1, e2, e3, e4]

/-- C4: deserialize_params is a closed dispatch over the enumerated
(actor kind, method) table: every pair outside the table returns an error
and never a default params value, with the single exception that for actor
kind "paymentchannel" with method Settle (3) or Collect (4) it returns an
empty params result for every input byte string, without attempting to
decode the input (the equation holds for every primitive record, including
ones whose decoders always fail). -/
theorem deserialize_params_closed_dispatch (p : Prim) (b64 actor : String)
    (method : Nat) :
    (paramsTableMember actor method = false →
      ∃ e, deserialize_params p b64 actor method = Except.error e)
    ∧ (∀ bytes, p.base64decode b64 = Except.ok bytes →
        actor = "paymentchannel" → (method = 3 ∨ method = 4) →
        deserialize_params p b64 actor method =
          Except.ok (MessageParams.MessageParamsSerialized "")) := by
  constructor
  · intro hout
    unfold deserialize_params
    cases hb : p.base64decode b64 with
    | error e => exact ⟨e, by rw [exbind_err]⟩
    | ok bytes =>
      rw [exbind_ok]
      by_cases hi : actor = "init"
      · subst hi
        rw [if_pos rfl]
        have hm2 : method ≠ 2 := by
          intro h; rw [h] at hout; exact absurd hout (by decide)
        by_cases h1 : method = 1
        · subst h1; exact ⟨_, rfl⟩
        · rw [methodInitFromU64_eq_none h1 hm2]; exact ⟨_, rfl⟩
      · rw [if_neg hi]
        by_cases hmu : actor = "multisig"
        · subst hmu
          rw [if_pos rfl]
          have hrange : ¬(2 ≤ method ∧ method ≤ 9) := by
            intro hr
            rw [paramsTableMember] at hout
            simp only [decide_eq_true_eq] at hout
            simp [hr] at hout
          by_cases h1 : method = 1
          · subst h1; exact ⟨_, rfl⟩
          · rw [msigMethodFromU64_eq_none h1 hrange]; exact ⟨_, rfl⟩
        · rw [if_neg hmu]
          by_cases hpc : actor = "paymentchannel"
          · subst hpc
            rw [if_pos rfl]
            have hrange : ¬(2 ≤ method ∧ method ≤ 4) := by
              intro hr
              rw [paramsTableMember] at hout
              simp only [decide_eq_true_eq] at hout
              simp [hr] at hout
            by_cases h1 : method = 1
            · subst h1; exact ⟨_, rfl⟩
            · rw [paychMethodFromU64_eq_none h1 hrange]; exact ⟨_, rfl⟩
          · rw [if_neg hpc]; exact ⟨_, rfl⟩
  · intro bytes hbytes hpc hm
    subst hpc
    unfold deserialize_params
    rw [hbytes, exbind_ok, if_neg (by decide), if_neg (by decide), if_pos rfl]
    rcases hm with hm | hm
    · subst hm; rfl
    · subst hm; rfl

/-- Witness for C4 at concrete inputs: the unrecognized pair
("account", 5) errors, the pair ("multisig", 1) (the constructor, which the
method dispatcher does not accept) errors, and ("paymentchannel", 3)
(Settle) returns the empty params result. -/
theorem deserialize_params_closed_dispatch_witness :
    (∃ e, deserialize_params prim0 "" "account" 5 = Except.error e)
    ∧ (∃ e, deserialize_params prim0 "" "multisig" 1 = Except.error e)
    ∧ deserialize_params prim0 "" "paymentchannel" 3 =
        Except.ok (MessageParams.MessageParamsSerialized "") := by
  refine ⟨?_, ?_, ?_⟩
  · exact (deserialize_params_closed_dispatch prim0 "" "account" 5).1 (by decide)
  · exact (deserialize_params_closed_dispatch prim0 "" "multisig" 1).1 (by decide)
  · exact (deserialize_params_closed_dispatch prim0 "" "paymentchannel" 3).2
      [] rfl rfl (Or.inl rfl)

/-- C8 counterexample: the amount parser accepts a leading minus sign, so
create_voucher succeeds on the amount string "-1" and the voucher it builds
carries the negative amount -1 — the claim's "non-negative integer"
invariant fails. -/
theorem create_voucher_negative_amount_counterexample :
    parseBigIntBase10 "-1" = some (-1)
    ∧ create_voucher prim0 "secp" 0 0 "-1" 0 1 0 = Except.ok "b64"
    ∧ (create_voucher_unsigned
        { network := Network.Testnet, protocol := Protocol.Secp256k1, payload := [1] }
        0 0 (-1) 0 1 0).amount < 0 := by
  refine ⟨rfl, rfl, by norm_num [create_voucher_unsigned]⟩

/-- C8 (amended): every voucher built by create_voucher is unsigned at
construction (signature field absent), has an empty merge list and empty
secret-preimage, and carries as amount the arbitrary-precision base-10
integer parsed from the amount string (the parser accepts an optional
leading sign, so the amount may be negative); create_voucher fails with an
error when the amount string cannot be parsed as a base-10 integer. -/
theorem create_voucher_unsigned_invariants (p : Prim) (pcs : String)
    (tlmin tlmax : Int) (amount : String) (lane nonce : Nat) (msh : Int)
    (pch : Address) (hpch : p.addressFromStr pcs = Except.ok pch) :
    (∀ v, parseBigIntBase10 amount = some v →
      (create_voucher_unsigned pch tlmin tlmax v lane nonce msh).signature = none
      ∧ (create_voucher_unsigned pch tlmin tlmax v lane nonce msh).merges = []
      ∧ (create_voucher_unsigned pch tlmin tlmax v lane nonce msh).secret_pre_image = []
      ∧ (create_voucher_unsigned pch tlmin tlmax v lane nonce msh).amount = v
      ∧ create_voucher p pcs tlmin tlmax amount lane nonce msh =
          (p.voucherToVec (create_voucher_unsigned pch tlmin tlmax v lane nonce msh)).map
            p.base64encode)
    ∧ (parseBigIntBase10 amount = none →
        create_voucher p pcs tlmin tlmax amount lane nonce msh =
          Except.error (SignerError.GenericString "`amount` couldn't be parsed.")) := by
  constructor
  · intro v hv
    refine ⟨rfl, rfl, rfl, rfl, ?_⟩
    unfold create_voucher
    rw [hpch, exbind_ok, hv]
    dsimp only
    cases hw : p.voucherToVec (create_voucher_unsigned pch tlmin tlmax v lane nonce msh) with
    | ok b => rfl
    | error e => rfl
  · intro hn
    unfold create_voucher
    rw [hpch, exbind_ok, hn]

/-- Witness for the amended C8 at concrete inputs: the amount "12" parses
and yields the invariant fields, and the amount "x" fails to parse. -/
theorem create_voucher_unsigned_invariants_witness :
    create_voucher prim0 "secp" 0 0 "12" 0 1 0 = Except.ok "b64"
    ∧ create_voucher prim0 "secp" 0 0 "x" 0 1 0 =
        Except.error (SignerError.GenericString "`amount` couldn't be parsed.") := by
  constructor
  · have h := (create_voucher_unsigned_invariants prim0 "secp" 0 0 "12" 0 1 0
      { network := Network.Testnet, protocol := Protocol.Secp256k1, payload := [1] }
      rfl).1 12 rfl
    rw [h.2.2.2.2]; rfl
  · exact (create_voucher_unsigned_invariants prim0 "secp" 0 0 "x" 0 1 0
      { network := Network.Testnet, protocol := Protocol.Secp256k1, payload := [1] }
      rfl).2 rfl

/-- C1: for every secp256k1-signed message, verify_signature performs
recovery-and-match: it recovers the public key from the signature's first
65 bytes and the blake2b-256 digest of the message's canonical signing
bytes, derives an address from the recovered key, and compares it (in
string form, both at the internally fixed Testnet network) to the message's
declared from address; if the two differ it returns Ok(false) — not an
error — and only when they are equal does it perform the underlying
secp256k1 validity check, whose result it returns. -/
theorem verify_signature_secp_recovery_and_match (p : Prim)
    (signature : Signature) (cbor : List Nat) (rs : SecpRS) (rid : SecpRecId)
    (tx : MessageTxAPI) (blob : SecpMsg32) (pk : SecpPubKey) (from0 : Address)
    (htype : signature.sig_type = SigType.Secp256k1)
    (hrs : p.secpParseSig (signature.bytes.take 64) = Except.ok rs)
    (hrid : p.secpParseRecid (signature.bytes.getD 64 0) = Except.ok rid)
    (htx : transaction_parse p cbor true = Except.ok tx)
    (hblob : p.secpParseMsg32 (p.blake2b256 (p.encodedSigningBytes cbor)) =
      Except.ok blob)
    (hrec : p.secpRecover blob rs rid = Except.ok pk)
    (haddr : p.newSecpAddress (p.secpSerializePub pk) = Except.ok from0) :
    verify_signature p signature cbor =
      (if p.addressToString tx.get_message.from_ ≠
          p.addressToString { from0 with network := Network.Testnet }
       then Except.ok false
       else Except.ok (p.secpVerify blob rs pk)) := by
  unfold verify_signature
  rw [htype]
  unfold verify_secp256k1_signature
  dsimp only
  rw [hrs, exbind_ok, hrid, exbind_ok]
  have hb : (Network.Testnet == Network.Testnet) = true := rfl
  rw [hb, htx, exbind_ok]
  unfold get_digest
  rw [exbind_ok, hblob, exbind_ok, hrec, exbind_ok, haddr, exbind_ok]
  cases tx <;> rfl

/-- Witness for C1 at a concrete instantiation: prim0, a 65-byte secp
signature and the empty encoded message; the recovered address differs from
the declared one, so the result is Ok(false). -/
theorem verify_signature_secp_recovery_and_match_witness :
    verify_signature prim0 (Signature.mk SigType.Secp256k1 (List.replicate 65 0)) [] =
      Except.ok false := by
  have h := verify_signature_secp_recovery_and_match prim0
    (Signature.mk SigType.Secp256k1 (List.replicate 65 0)) []
    { raw := 64 } { raw := 0 }
    (MessageTxAPI.Message (({ msg0 with params := [] } : Message).setNetwork
      Network.Testnet))
    { raw := List.replicate 32 0 } { raw := [2] }
    { network := Network.Mainnet, protocol := Protocol.Secp256k1, payload := [2] }
    rfl rfl rfl rfl rfl rfl rfl
  rw [h, if_pos (by decide)]

theorem setNetwork_mangle (g : Network → Network) (tx : MessageTxAPI)
    (n : Network) : (mangleNetworks g tx).setNetwork n = tx.setNetwork n := by
  cases tx <;> rfl

theorem transaction_parse_mangled (p : Prim) (g : Network → Network)
    (cbor : List Nat) (b : Bool) :
    transaction_parse (p.withNetworkMangled g) cbor b =
      transaction_parse p cbor b := by
  unfold transaction_parse Prim.withNetworkMangled
  dsimp only
  cases h : p.fromSliceMessageTx cbor with
  | ok m => rw [exmap_ok, exbind_ok, setNetwork_mangle]; rfl
  | error e => rfl

/-- C9: the secp256k1 branch of verify_signature fixes the network to
Testnet internally: the declared from address of the parsed message is
stamped Testnet before comparison (second conjunct), so the verification
result does not depend on the network tags the decoder would report on the
decoded message's addresses (first conjunct: mangling those tags arbitrarily
leaves the result unchanged), and two calls on the same signature and
encoded message return the same result (third conjunct: the function is
deterministic). -/
theorem verify_secp256k1_network_independent (p : Prim)
    (g : Network → Network) (signature : Signature) (cbor : List Nat) :
    verify_secp256k1_signature (p.withNetworkMangled g) signature cbor =
      verify_secp256k1_signature p signature cbor
    ∧ (∀ tx, transaction_parse p cbor true = Except.ok tx →
        tx.get_message.from_.network = Network.Testnet)
    ∧ verify_secp256k1_signature p signature cbor =
        verify_secp256k1_signature p signature cbor := by
  refine ⟨?_, ?_, rfl⟩
  · unfold verify_secp256k1_signature
    dsimp only
    rw [transaction_parse_mangled]
    rfl
  · intro tx htx
    unfold transaction_parse at htx
    cases h : p.fromSliceMessageTx cbor with
    | ok m =>
      rw [h, exbind_ok] at htx
      cases htx
      cases m <;> rfl
    | error e => rw [h, exbind_err] at htx; cases htx

/-- Witness for C9 at a concrete instantiation: prim0 with all decoded
network tags rewritten to Mainnet gives the same result, and the parsed
declared address is stamped Testnet. -/
theorem verify_secp256k1_network_independent_witness :
    verify_secp256k1_signature (prim0.withNetworkMangled fun _ => Network.Mainnet)
        (Signature.mk SigType.Secp256k1 (List.replicate 65 0)) [] =
      verify_secp256k1_signature prim0
        (Signature.mk SigType.Secp256k1 (List.replicate 65 0)) []
    ∧ (MessageTxAPI.Message (({ msg0 with params := [] } : Message).setNetwork
        Network.Testnet)).get_message.from_.network = Network.Testnet := by
  have h := verify_secp256k1_network_independent prim0 (fun _ => Network.Mainnet)
    (Signature.mk SigType.Secp256k1 (List.replicate 65 0)) []
  exact ⟨h.1, h.2.1 _ rfl⟩

/-- C6: verify_voucher_signature fails with the VoucherNotSigned error
whenever the decoded voucher's signature field is absent; when the signature
is present and the given signer address is secp256k1, it fails with the
AddressMismatch error whenever the address derived from the recovered
public key differs from the given address; when the given address is BLS,
it verifies directly using the address payload as the public key; and for
any other address protocol it fails with an unsupported-protocol error. -/
theorem verify_voucher_signature_error_dispatch (p : Prim)
    (voucher_base64_string address_signer : String) (decoded : List Nat)
    (signed_voucher : SignedVoucher) (address : Address) (sv_bytes : List Nat)
    (hdec : p.base64decode voucher_base64_string = Except.ok decoded)
    (hv : p.voucherFromSlice decoded = Except.ok signed_voucher)
    (haddr : p.addressFromStr address_signer = Except.ok address)
    (hsvb : p.voucherToVec { signed_voucher with signature := none } =
      Except.ok sv_bytes) :
    (signed_voucher.signature = none →
      verify_voucher_signature p voucher_base64_string address_signer =
        Except.error (SignerError.GenericString "Voucher not signed."))
    ∧ (∀ signature, signed_voucher.signature = some signature →
        address.protocol = Protocol.Secp256k1 →
        ∀ sig rid pk signer0,
          p.secpParseSig (signature.bytes.take 64) = Except.ok sig →
          p.secpParseRecid (signature.bytes.getD 64 0) = Except.ok rid →
          p.secpRecover (p.secpMsgParse (p.blake2b256 sv_bytes)) sig rid =
            Except.ok pk →
          p.newSecpAddress (p.secpSerializePub pk) = Except.ok signer0 →
          p.addressToString { signer0 with network := address.network } ≠
            p.addressToString address →
          verify_voucher_signature p voucher_base64_string address_signer =
            Except.error (SignerError.GenericString
              "Address recovered doesn't match address given"))
    ∧ (∀ signature, signed_voucher.signature = some signature →
        address.protocol = Protocol.BLS →
        ∀ pk bsig,
          p.blsPkFromBytes address.payload = Except.ok pk →
          p.blsSigFromBytes signature.bytes = Except.ok bsig →
          verify_voucher_signature p voucher_base64_string address_signer =
            Except.ok (p.blsVerify pk bsig (p.blake2b256 sv_bytes)))
    ∧ (signed_voucher.signature ≠ none →
        (address.protocol = Protocol.ID ∨ address.protocol = Protocol.Actor) →
        verify_voucher_signature p voucher_base64_string address_signer =
          Except.error (SignerError.GenericString
            "Address should BLS or Secp256k1.")) := by
  refine ⟨?_, ?_, ?_, ?_⟩
  · intro hnone
    unfold verify_voucher_signature
    rw [hdec, exbind_ok, hv, exbind_ok, haddr, exbind_ok]
    unfold SignedVoucher.signing_bytes
    rw [hsvb, exbind_ok]
    unfold get_digest_voucher
    rw [exbind_ok, hnone]
  · intro signature hsig hproto sig rid pk signer0 h1 h2 h3 h4 hne
    unfold verify_voucher_signature
    rw [hdec, exbind_ok, hv, exbind_ok, haddr, exbind_ok]
    unfold SignedVoucher.signing_bytes
    rw [hsvb, exbind_ok]
    unfold get_digest_voucher
    rw [exbind_ok, hsig]
    dsimp only
    rw [hproto]
    dsimp only
    rw [h1, exbind_ok, h2, exbind_ok, h3, exbind_ok, h4, exbind_ok]
    rw [if_pos hne]
  · intro signature hsig hproto pk bsig h1 h2
    unfold verify_voucher_signature
    rw [hdec, exbind_ok, hv, exbind_ok, haddr, exbind_ok]
    unfold SignedVoucher.signing_bytes
    rw [hsvb, exbind_ok]
    unfold get_digest_voucher
    rw [exbind_ok, hsig]
    dsimp only
    rw [hproto]
    dsimp only
    rw [h1, exbind_ok, h2, exbind_ok]
  · intro hsome hproto
    unfold verify_voucher_signature
    rw [hdec, exbind_ok, hv, exbind_ok, haddr, exbind_ok]
    unfold SignedVoucher.signing_bytes
    rw [hsvb, exbind_ok]
    unfold get_digest_voucher
    rw [exbind_ok]
    cases hs : signed_voucher.signature with
    | none => exact absurd hs hsome
    | some signature =>
      dsimp only
      rcases hproto with hp | hp <;> rw [hp]

/-- Witness for C6 at concrete instantiations of all four branches: an
unsigned voucher errors with VoucherNotSigned; a signed voucher checked
against a secp256k1 address whose recovered address differs errors with
AddressMismatch; a signed voucher against a BLS address verifies against
the digest (here false); and an ID-protocol address errors as
unsupported. -/
theorem verify_voucher_signature_error_dispatch_witness :
    verify_voucher_signature prim0 "" "secp" =
      Except.error (SignerError.GenericString "Voucher not signed.")
    ∧ verify_voucher_signature prim0 "v" "secp" =
        Except.error (SignerError.GenericString
          "Address recovered doesn't match address given")
    ∧ verify_voucher_signature prim0 "v" "bls" = Except.ok false
    ∧ verify_voucher_signature prim0 "v" "id" =
        Except.error (SignerError.GenericString
          "Address should BLS or Secp256k1.") := by
  refine ⟨?_, ?_, ?_, ?_⟩
  · exact (verify_voucher_signature_error_dispatch prim0 "" "secp" [] voucher0
      { network := Network.Testnet, protocol := Protocol.Secp256k1, payload := [1] }
      [5] rfl rfl rfl rfl).1 rfl
  · exact (verify_voucher_signature_error_dispatch prim0 "v" "secp" [118]
      { voucher0 with signature := some (Signature.new_secp256k1 (List.replicate 65 9)) }
      { network := Network.Testnet, protocol := Protocol.Secp256k1, payload := [1] }
      [5] rfl rfl rfl rfl).2.1 _ rfl rfl
      { raw := 64 } { raw := 9 } { raw := [2] }
      { network := Network.Mainnet, protocol := Protocol.Secp256k1, payload := [2] }
      rfl rfl rfl rfl (by decide)
  · have h := (verify_voucher_signature_error_dispatch prim0 "v" "bls" [118]
      { voucher0 with signature := some (Signature.new_secp256k1 (List.replicate 65 9)) }
      { network := Network.Testnet, protocol := Protocol.BLS, payload := [3] }
      [5] rfl rfl rfl rfl).2.2.1 _ rfl rfl
      { raw := [3] } { raw := List.replicate 65 9 } rfl rfl
    rw [h]
    rfl
  · exact (verify_voucher_signature_error_dispatch prim0 "v" "id" [118]
      { voucher0 with signature := some (Signature.new_secp256k1 (List.replicate 65 9)) }
      { network := Network.Testnet, protocol := Protocol.ID, payload := [0] }
      [5] rfl rfl rfl rfl).2.2.2 (by simp) (Or.inl rfl)

/-- C10: the BLS branch of verify_voucher_signature checks the signature
against the 32-byte blake2b-256 digest of the voucher's canonical signing
bytes, not against the signing bytes themselves (first two conjuncts),
whereas the BLS branch of transaction verification checks against the raw
canonical signing bytes (last conjunct); consequently a BLS signature that
only verifies over the voucher's raw signing bytes does not verify through
verify_voucher_signature whenever the digest differs from those bytes
(third conjunct). -/
theorem verify_voucher_bls_digest_not_raw_bytes (p : Prim)
    (voucher_base64_string address_signer : String) (decoded : List Nat)
    (signed_voucher : SignedVoucher) (address : Address) (sv_bytes : List Nat)
    (signature : Signature) (pk : BLSPk) (bsig : BLSSig)
    (hdec : p.base64decode voucher_base64_string = Except.ok decoded)
    (hv : p.voucherFromSlice decoded = Except.ok signed_voucher)
    (haddr : p.addressFromStr address_signer = Except.ok address)
    (hsvb : p.voucherToVec { signed_voucher with signature := none } =
      Except.ok sv_bytes)
    (hsig : signed_voucher.signature = some signature)
    (hproto : address.protocol = Protocol.BLS)
    (hpk : p.blsPkFromBytes address.payload = Except.ok pk)
    (hbsig : p.blsSigFromBytes signature.bytes = Except.ok bsig) :
    verify_voucher_signature p voucher_base64_string address_signer =
      Except.ok (p.blsVerify pk bsig (p.blake2b256 sv_bytes))
    ∧ (p.blake2b256 sv_bytes).length = 32
    ∧ ((∀ x, p.blsVerify pk bsig x = true → x = sv_bytes) →
        p.blake2b256 sv_bytes ≠ sv_bytes →
        verify_voucher_signature p voucher_base64_string address_signer =
          Except.ok false)
    ∧ (∀ (sig2 : Signature) (cbor : List Nat) (tx : MessageTxAPI)
        (pk2 : BLSPk) (bsig2 : BLSSig),
        transaction_parse p cbor true = Except.ok tx →
        p.blsPkFromBytes tx.get_message.from_.payload = Except.ok pk2 →
        p.blsSigFromBytes sig2.bytes = Except.ok bsig2 →
        verify_bls_signature p sig2 cbor =
          Except.ok (p.blsVerify pk2 bsig2
            (p.messageToSigningBytes tx.get_message))) := by
  have heq : verify_voucher_signature p voucher_base64_string address_signer =
      Except.ok (p.blsVerify pk bsig (p.blake2b256 sv_bytes)) := by
    unfold verify_voucher_signature
    rw [hdec, exbind_ok, hv, exbind_ok, haddr, exbind_ok]
    unfold SignedVoucher.signing_bytes
    rw [hsvb, exbind_ok]
    unfold get_digest_voucher
    rw [exbind_ok, hsig]
    dsimp only
    rw [hproto]
    dsimp only
    rw [hpk, exbind_ok, hbsig, exbind_ok]
  refine ⟨heq, p.blake2b256_len sv_bytes, ?_, ?_⟩
  · intro hsound hne
    rw [heq]
    cases hb : p.blsVerify pk bsig (p.blake2b256 sv_bytes) with
    | true => exact absurd (hsound _ hb) hne
    | false => rfl
  · intro sig2 cbor tx pk2 bsig2 htx hpk2 hbsig2
    unfold verify_bls_signature
    rw [htx, exbind_ok]
    dsimp only
    rw [hpk2, exbind_ok, hbsig2, exbind_ok]

/-- Witness for C10 at a concrete instantiation: the voucher decoded from
"v" checked against the BLS address "bls" — the concrete BLS verifier
accepts exactly the raw signing bytes [5], the digest is 32 zero bytes, so
voucher verification returns false while a transaction whose signing bytes
are the accepted value verifies against the raw bytes. -/
theorem verify_voucher_bls_digest_not_raw_bytes_witness :
    verify_voucher_signature prim0 "v" "bls" = Except.ok false
    ∧ (prim0.blake2b256 [5]).length = 32
    ∧ verify_bls_signature prim0 (Signature.mk SigType.BLS [4]) [5] =
        Except.ok true := by
  have h := verify_voucher_bls_digest_not_raw_bytes prim0 "v" "bls" [118]
    { voucher0 with signature := some (Signature.new_secp256k1 (List.replicate 65 9)) }
    { network := Network.Testnet, protocol := Protocol.BLS, payload := [3] }
    [5] (Signature.new_secp256k1 (List.replicate 65 9))
    { raw := [3] } { raw := List.replicate 65 9 }
    rfl rfl rfl rfl rfl rfl rfl rfl
  refine ⟨?_, h.2.1, ?_⟩
  · exact h.2.2.1 (fun x hx => of_decide_eq_true hx) (by decide)
  · have h2 := h.2.2.2 (Signature.mk SigType.BLS [4]) [5]
      (MessageTxAPI.Message (({ msg0 with params := [5] } : Message).setNetwork
        Network.Testnet))
      { raw := [1] } { raw := [4] } rfl rfl rfl
    rw [h2]
    rfl

theorem collectExcept_isError_of_mem {α : Type} {l : List (Except SignerError α)}
    {x : Except SignerError α} (hx : x ∈ l) (he : isError x = true) :
    isError (collectExcept l) = true := by
  induction l with
  | nil => cases hx
  | cons y ys ih =>
    rcases List.mem_cons.mp hx with h | h
    · subst h
      cases x with
      | error e => rfl
      | ok a => simp [isError] at he
    · cases y with
      | error e => rfl
      | ok a =>
        have hys := ih h
        unfold collectExcept
        rw [exbind_ok]
        cases hc : collectExcept ys with
        | error e => rfl
        | ok vs => rw [hc] at hys; simp [isError] at hys

/-- C7: for every aggregate signature and list of encoded messages, if
extracting the BLS public key from any message's sender address payload
fails, or computing any message's canonical signing bytes fails, then
verify_aggregated_signature returns an error (no boolean result and no
partial verification); only when every extraction succeeds does it perform
the single pairing check of the aggregate signature against all
(public key, hash) pairs in input order. -/
theorem verify_aggregated_signature_all_or_error (p : Prim)
    (signature : Signature) (cbor_messages : List (List Nat)) :
    ((∃ m ∈ cbor_messages,
        isError (extract_from_pub_key_from_message p m) = true
        ∨ isError (extract_bls_signing_bytes_from_message p m) = true) →
      isError (verify_aggregated_signature p signature cbor_messages) = true)
    ∧ (∀ sig pks sbs,
        p.blsSigFromBytes signature.bytes = Except.ok sig →
        collectExcept (cbor_messages.map (extract_from_pub_key_from_message p)) =
          Except.ok pks →
        collectExcept (cbor_messages.map (extract_bls_signing_bytes_from_message p)) =
          Except.ok sbs →
        verify_aggregated_signature p signature cbor_messages =
          Except.ok (p.blsVerifyAgg sig (sbs.map p.blsHash) pks)) := by
  constructor
  · rintro ⟨m, hm, hcase⟩
    unfold verify_aggregated_signature
    cases hsg : p.blsSigFromBytes signature.bytes with
    | error e => rfl
    | ok sig =>
      rw [exbind_ok]
      rcases hcase with hpk | hsb
      · have herr := collectExcept_isError_of_mem
          (List.mem_map.mpr ⟨m, hm, rfl⟩) hpk
        cases hc : collectExcept
            (cbor_messages.map (extract_from_pub_key_from_message p)) with
        | error e => rfl
        | ok pks => rw [hc] at herr; simp [isError] at herr
      · cases hc : collectExcept
            (cbor_messages.map (extract_from_pub_key_from_message p)) with
        | error e => rfl
        | ok pks =>
          have herr := collectExcept_isError_of_mem
            (List.mem_map.mpr ⟨m, hm, rfl⟩) hsb
          cases hc2 : collectExcept
              (cbor_messages.map (extract_bls_signing_bytes_from_message p)) with
          | error e => rfl
          | ok sbs => rw [hc2] at herr; simp [isError] at herr
  · intro sig pks sbs hsg hpks hsbs
    unfold verify_aggregated_signature
    rw [hsg, exbind_ok, hpks]
    dsimp only
    rw [hsbs]

/-- Witness for C7 at concrete instantiations: the message [9] fails to
parse, so aggregate verification over [[9]] errors; over [[1]] every
extraction succeeds and the single aggregate pairing check runs. -/
theorem verify_aggregated_signature_all_or_error_witness :
    isError (verify_aggregated_signature prim0
      (Signature.mk SigType.BLS [1]) [[9]]) = true
    ∧ verify_aggregated_signature prim0 (Signature.mk SigType.BLS [1]) [[1]] =
        Except.ok true := by
  constructor
  · exact (verify_aggregated_signature_all_or_error prim0
      (Signature.mk SigType.BLS [1]) [[9]]).1 ⟨[9], by simp, Or.inl rfl⟩
  · have h := (verify_aggregated_signature_all_or_error prim0
      (Signature.mk SigType.BLS [1]) [[1]]).2
      { raw := [1] } [{ raw := [1] }] [[1]] rfl rfl rfl
    rw [h]
    rfl

end FilecoinSigner
